import Mathlib

/-!
Shallow embedding of the Cuckoo Android in-guest analyzer
(`analyzer/android/analyzer.py`) and of the variant-name normalizer of
`lib/cuckoo/common/virustotal.py`, with theorems settling the spec claims.

Python string primitives (`str.strip`, `str.split`, `str.lower`,
single-character-class `re.split`) are embedded as executable functions on
`List Char` so that every definition evaluates inside the kernel.
-/

namespace Cuckoo

/-- Python whitespace, as removed by `str.strip()`. -/
def isSpaceChar (c : Char) : Bool :=
  c = ' ' || c = '\t' || c = '\n' || c = '\r' || c = '\x0b' || c = '\x0c'

/-- Python `str.strip()`: drop whitespace from both ends. -/
def pyStrip (l : List Char) : List Char :=
  ((l.dropWhile isSpaceChar).reverse.dropWhile isSpaceChar).reverse

/-- Python `str.split(sep)` for a one-character separator (and `re.split`
on a single-character class): split at every separator occurrence, keeping
empty pieces; the empty string yields `[""]`. -/
def pySplit (isSep : Char → Bool) : List Char → List (List Char)
  | [] => [[]]
  | c :: rest =>
    match pySplit isSep rest with
    | [] => [[]]
    | w :: ws => if isSep c then [] :: w :: ws else (c :: w) :: ws

def strOf (l : List Char) : String := ⟨l⟩

/-- `str.strip()` lifted to `String`. -/
def strip (s : String) : String := strOf (pyStrip s.data)

/-- Python 2 `str.lower()` on the ASCII range. -/
def lowerChar (c : Char) : Char :=
  if 'A' ≤ c ∧ c ≤ 'Z' then Char.ofNat (c.toNat + 32) else c

def lowerStr (s : String) : String := strOf (s.data.map lowerChar)

/-! ## Option parser — `Analyzer.get_options` (analyzer.py:34-63) -/

/-- Assignment `options[key] = value` into a Python dict modelled as an
association list: an existing binding for `key` is overwritten in place,
a new key is appended. -/
def upsert (m : List (String × String)) (k v : String) : List (String × String) :=
  if m.any (fun p => p.1 = k) then m.map (fun p => if p.1 = k then (k, v) else p)
  else m ++ [(k, v)]

/-- `field.strip().split("=")` (analyzer.py:55). -/
def splitEq (field : String) : List String :=
  (pySplit (fun c => c = '=') (pyStrip field.data)).map strOf

/-- Body of the per-field loop (analyzer.py:52-61).  The accumulator carries
the options dict and the number of warnings logged so far.  Python's tuple
unpacking `key, value = field.strip().split("=")` raises `ValueError`
unless the split yields exactly two pieces; the handler logs a warning and
drops the pair. -/
def stepField (acc : List (String × String) × Nat) (field : String) :
    List (String × String) × Nat :=
  match splitEq field with
  | [key, value] => (upsert acc.1 (strip key) (strip value), acc.2)
  | _ => (acc.1, acc.2 + 1)

/-- `Analyzer.get_options` (analyzer.py:34-63).  `none` models an absent
`config.options`; the empty string is falsy in Python, so both yield the
empty dict.  Otherwise the stripped string is split on commas and each
field processed by `stepField`.  (The `try` around `split(",")` is dead:
`str.split` never raises `ValueError`.)  Returns the dict and the warning
count. -/
def get_options (options : Option String) : List (String × String) × Nat :=
  match options with
  | none => ([], 0)
  | some s =>
    if s = "" then ([], 0)
    else (((pySplit (fun c => c = ',') (pyStrip s.data)).map strOf).foldl stepField ([], 0))

/-! ## VirusTotalAPI.normalize (virustotal.py:141-161) -/

/-- `VirusTotalAPI.VARIANT_BLACKLIST` (virustotal.py:32-36). -/
def VARIANT_BLACKLIST : List String := [
  "generic", "malware", "trojan", "agent", "win32", "multi", "w32",
  "trojanclicker", "trojware", "win", "a variant of win32", "trj",
  "susp", "dangerousobject"
]

/-- The separator class of `re.split("[\\.\\-\\(\\)\\[\\]/!:]", variant)`. -/
def isVariantSep (c : Char) : Bool :=
  c = '.' || c = '-' || c = '(' || c = ')' || c = '[' ||
  c = ']' || c = '/' || c = '!' || c = ':'

def isHexDigitChar (c : Char) : Bool :=
  ('0' ≤ c && c ≤ '9') || ('a' ≤ c && c ≤ 'f') || ('A' ≤ c && c ≤ 'F')

/-- One pass of the word loop (virustotal.py:149-160): strip the word, skip
it when shorter than 4 characters, when its lowercase form is blacklisted,
or when `re.match("[a-fA-F0-9]+$", word)` succeeds — which, on a stripped
word (no trailing newline), holds exactly when the word is nonempty and
all-hexadecimal. -/
def normWord (w : List Char) : Option String :=
  let word := pyStrip w
  if word.length < 4 then none
  else if VARIANT_BLACKLIST.contains (strOf (word.map lowerChar)) then none
  else if !word.isEmpty && word.all isHexDigitChar then none
  else some (strOf word)

/-- `VirusTotalAPI.normalize` (virustotal.py:141-161).  `none` models a
`None` argument; the empty string is falsy, so both return `[]`. -/
def normalize (variant : Option String) : List String :=
  match variant with
  | none => []
  | some v =>
    if v = "" then []
    else (pySplit isVariantSep v.data).filterMap normWord

/-! ## The polling loop (analyzer.py:182-207)

The loop body increments `time_counter`, breaks when it reaches
`int(self.config.timeout)`, otherwise calls `pack.check()`: a `False`
return breaks the loop, any raised exception is logged and the loop
continues, exactly as a `True` return does.  The embedding counts loop-body
entries (the final value of `time_counter`) and is fuel-indexed because the
Python loop need not terminate when `timeout = 0`. -/

/-- Outcome of one `pack.check()` call. -/
inductive CheckRes
  | retTrue
  | retFalse
  | raised
deriving DecidableEq

inductive PollExit
  | timeoutHit
  | requested
  | fuelOut
deriving DecidableEq

/-- The loop from a state where `time_counter = c`, with `fuel` loop-body
entries still allowed; returns the final `time_counter` and the exit
reason. -/
def pollAux (N : Nat) (check : Nat → CheckRes) : Nat → Nat → Nat × PollExit
  | 0, c => (c, PollExit.fuelOut)
  | fuel + 1, c =>
    let i := c + 1
    if i = N then (i, PollExit.timeoutHit)
    else
      match check i with
      | CheckRes.retFalse => (i, PollExit.requested)
      | CheckRes.retTrue => pollAux N check fuel i
      | CheckRes.raised => pollAux N check fuel i

/-- The loop entered with `time_counter = 0` (analyzer.py:182). -/
def pollLoop (N fuel : Nat) (check : Nat → CheckRes) : Nat × PollExit :=
  pollAux N check fuel 0

/-! ## Auxiliary modules (analyzer.py:147-165, 217-225) -/

/-- Result of an auxiliary `start()`/`stop()` call: normal return,
`NotImplementedError`/`AttributeError`, or any other exception. -/
inductive AuxRes
  | ok
  | notImpl
  | raised (msg : String)
deriving DecidableEq

/-- An auxiliary module, with the behavior of its `start()` and `stop()`
methods (its constructor is assumed to return normally). -/
structure AuxMod where
  name : String
  startRes : AuxRes
  stopRes : AuxRes
deriving DecidableEq

/-- Observable events of a run, in program order. -/
inductive Ev
  | auxStartCall (name : String)
  | auxAppend (name : String)
  | finishCall
  | auxStopCall (name : String)
deriving DecidableEq

/-- The auxiliary start loop (analyzer.py:147-165).  Each module has
`start()` invoked; the `except` handlers log a warning and `continue`, but
the `finally` block runs first and unconditionally both logs "Started
auxiliary module" and appends the module to `aux_enabled` — so every
module ends up recorded, whatever its `start()` did.  Returns the events
and the final `aux_enabled` list. -/
def auxStartLoop : List AuxMod → List Ev × List AuxMod
  | [] => ([], [])
  | m :: rest =>
    let r := auxStartLoop rest
    match m.startRes with
    | AuxRes.ok =>
        (Ev.auxStartCall m.name :: Ev.auxAppend m.name :: r.1, m :: r.2)
    | AuxRes.notImpl =>
        (Ev.auxStartCall m.name :: Ev.auxAppend m.name :: r.1, m :: r.2)
    | AuxRes.raised _ =>
        (Ev.auxStartCall m.name :: Ev.auxAppend m.name :: r.1, m :: r.2)

/-- The auxiliary stop loop (analyzer.py:217-225): `stop()` is invoked on
every element of `aux_enabled`; `NotImplementedError`/`AttributeError` hit
a bare `continue`, any other exception is logged — in each case the loop
proceeds to the next module. -/
def auxStopLoop : List AuxMod → List Ev
  | [] => []
  | m :: rest =>
    match m.stopRes with
    | AuxRes.ok => Ev.auxStopCall m.name :: auxStopLoop rest
    | AuxRes.notImpl => Ev.auxStopCall m.name :: auxStopLoop rest
    | AuxRes.raised _ => Ev.auxStopCall m.name :: auxStopLoop rest

/-! ## Driver (analysis package) start (analyzer.py:167-180) -/

/-- Behavior of `pack.start(target)`: normal return,
`NotImplementedError`, `CuckooPackageError`, or any other exception. -/
inductive StartRes
  | ok
  | notImplemented
  | packageError (msg : String)
  | unexpected (msg : String)
deriving DecidableEq

def startNotImplMsg (package_name : String) : String :=
  ("The package \"" ++ package_name ++ "\" ") ++
    "doesn't contain a run function."

def startPkgErrMsg (package_name e : String) : String :=
  ("The package \"" ++ package_name ++ "\" ") ++
    ("start function raised an error: " ++ e)

def startUnexpMsg (package_name e : String) : String :=
  ("The package \"" ++ package_name ++ "\" ") ++
    ("start function encountered an unhandled exception: " ++ e)

/-- The three `except` clauses around `pack.start` (analyzer.py:169-180):
each failure subkind is re-raised as a `CuckooError` with its own
message. -/
def driverStartError (package_name : String) : StartRes → Option String
  | StartRes.ok => none
  | StartRes.notImplemented => some (startNotImplMsg package_name)
  | StartRes.packageError e => some (startPkgErrMsg package_name e)
  | StartRes.unexpected e => some (startUnexpMsg package_name e)

/-! ## The run (`Analyzer.run`, analyzer.py:81-229) -/

inductive Category
  | file
  | url
deriving DecidableEq

/-- The fields of `analysis.conf` that `Analyzer.run` consumes. -/
structure Config where
  package : Option String
  category : Category
  fileType : String
  timeout : Nat
  options : Option String

/-- The environment a run executes in: the results of `choose_package`, of
the dynamic imports, the subclass registry, and the behavior of the driver
and the auxiliary modules. -/
structure Env where
  choosePackage : Option String
  importOk : String → Bool
  subclassAvailable : Bool
  auxs : List AuxMod
  startRes : StartRes
  checkRes : Nat → CheckRes
  finishRaises : Bool

/-- Package auto-selection (analyzer.py:90-106): `choose_package` for a
file target, `"default_browser"` for a URL; no candidate raises a
`CuckooError`. -/
def autoSelect (env : Env) (cfg : Config) : Except String String :=
  match (if cfg.category = Category.file then env.choosePackage
         else some "default_browser") with
  | none => Except.error ("No valid package available for file type: " ++ cfg.fileType)
  | some p => Except.ok p

/-- Package selection (analyzer.py:90-109).  `if not self.config.package:`
treats both an absent and an empty name as unset. -/
def resolvePackage (env : Env) (cfg : Config) : Except String String :=
  match cfg.package with
  | some p => if p = "" then autoSelect env cfg else Except.ok p
  | none => autoSelect env cfg

/-- How `Analyzer.run` ended: returned `True`, raised a `CuckooError`, or
(fuel exhausted in the embedding) the polling loop never exited. -/
inductive RunOutcome
  | finished (b : Bool)
  | raised (msg : String)
  | outOfFuel
deriving DecidableEq

structure RunTrace where
  events : List Ev
  poll : Option (Nat × PollExit)
  outcome : RunOutcome
deriving DecidableEq

/-- `Analyzer.run` (analyzer.py:81-229): package selection and import,
subclass lookup, the auxiliary start loop, `pack.start`, the polling loop,
`pack.finish()` (its exception only logged, analyzer.py:209-215), the
auxiliary stop loop, `self.complete()`, `return True`.  A `CuckooError`
raised on the way aborts the run with the events produced so far. -/
def runAnalyzer (env : Env) (cfg : Config) (fuel : Nat) : RunTrace :=
  match resolvePackage env cfg with
  | Except.error msg => ⟨[], none, RunOutcome.raised msg⟩
  | Except.ok pkg =>
    let package_name := "modules.packages." ++ pkg
    if env.importOk package_name = false then
      ⟨[], none, RunOutcome.raised
        ("Unable to import package \"" ++ package_name ++ "\", does not exist.")⟩
    else if env.subclassAvailable = false then
      ⟨[], none, RunOutcome.raised
        ("Unable to select package class (package=" ++ package_name ++
          "): list index out of range")⟩
    else
      let started := auxStartLoop env.auxs
      match driverStartError package_name env.startRes with
      | some msg => ⟨started.1, none, RunOutcome.raised msg⟩
      | none =>
        match pollLoop cfg.timeout fuel env.checkRes with
        | (iters, PollExit.fuelOut) =>
            ⟨started.1, some (iters, PollExit.fuelOut), RunOutcome.outOfFuel⟩
        | pr =>
            ⟨started.1 ++ Ev.finishCall :: auxStopLoop started.2,
              some pr, RunOutcome.finished true⟩

/-! ## The `__main__` block (analyzer.py:231-262) -/

/-- How the `try` body of `__main__` ended. -/
inductive RunExit
  | returned (b : Bool)
  | raisedError (msg : String)
  | keyboardInterrupt
deriving DecidableEq

/-- Final state of the `__main__` block: the `success` and `error`
variables and the list of `server.complete(success, error, ...)` calls
performed, with their arguments. -/
structure MainState where
  success : Bool
  error : String
  completionCalls : List (Bool × String)
deriving DecidableEq

/-- The `try`/`except` clauses (analyzer.py:235-255): `success = False`
and `error = ""` initially; a normal return stores the result, a
`KeyboardInterrupt` sets the fixed message, any other exception stores its
text. -/
def handleRun : RunExit → MainState
  | RunExit.returned b => ⟨b, "", []⟩
  | RunExit.keyboardInterrupt => ⟨false, "Keyboard Interrupt", []⟩
  | RunExit.raisedError msg => ⟨false, msg, []⟩

/-- The whole `__main__` block: the `finally` clause (analyzer.py:258-261)
performs the one `server.complete` call on every path out of the `try`. -/
def analyzerMain (e : RunExit) : MainState :=
  let st := handleRun e
  ⟨st.success, st.error, st.completionCalls ++ [(st.success, st.error)]⟩

/-- The exit of the `try` body when the run is `runAnalyzer env cfg fuel`:
`analyzer.run()` either returns or raises (every abort is an `Exception`);
`none` when the embedding ran out of fuel, i.e. the Python loop is still
running and `__main__` has not exited. -/
def runExitOf (env : Env) (cfg : Config) (fuel : Nat) : Option RunExit :=
  match (runAnalyzer env cfg fuel).outcome with
  | RunOutcome.finished b => some (RunExit.returned b)
  | RunOutcome.raised msg => some (RunExit.raisedError msg)
  | RunOutcome.outOfFuel => none

/-! ## Helper lemmas -/

/-- When `check` never returns false, the loop runs to the timeout: final
counter `N`, provided enough fuel. -/
theorem pollAux_no_false (N : Nat) (check : Nat → CheckRes)
    (hno : ∀ i, ¬(check i = CheckRes.retFalse)) :
    ∀ (fuel c : Nat), c < N → N ≤ fuel + c →
      pollAux N check fuel c = (N, PollExit.timeoutHit) := by
  intro fuel
  induction fuel with
  | zero => intro c hc hf; omega
  | succ fuel ih =>
    intro c hc hf
    simp only [pollAux]
    by_cases hN : c + 1 = N
    · simp [hN]
    · have h1 : c + 1 < N := by omega
      cases hck : check (c + 1) with
      | retTrue => simp [hN, hck]; exact ih (c + 1) h1 (by omega)
      | retFalse => exact absurd hck (hno (c + 1))
      | raised => simp [hN, hck]; exact ih (c + 1) h1 (by omega)

/-- When `check` first returns false at iteration `k < N`, the loop exits
there with final counter `k`. -/
theorem pollAux_first_false (N k : Nat) (check : Nat → CheckRes)
    (hk : check k = CheckRes.retFalse) (hkN : k < N)
    (hbefore : ∀ i, 1 ≤ i → i < k → ¬(check i = CheckRes.retFalse)) :
    ∀ (fuel c : Nat), c < k → k ≤ fuel + c →
      pollAux N check fuel c = (k, PollExit.requested) := by
  intro fuel
  induction fuel with
  | zero => intro c hc hf; omega
  | succ fuel ih =>
    intro c hc hf
    simp only [pollAux]
    have hN : ¬(c + 1 = N) := by omega
    by_cases hck2 : c + 1 = k
    · rw [hck2]
      simp [show ¬(k = N) from by omega, hk]
    · have h1 : c + 1 < k := by omega
      cases hck : check (c + 1) with
      | retTrue => simp [hN, hck]; exact ih (c + 1) h1 (by omega)
      | retFalse => exact absurd hck (hbefore (c + 1) (by omega) h1)
      | raised => simp [hN, hck]; exact ih (c + 1) h1 (by omega)

/-- With a positive timeout and enough fuel the loop always exits via
timeout or via a false `check`, never by fuel exhaustion. -/
theorem pollAux_exit (N : Nat) (check : Nat → CheckRes) :
    ∀ (fuel c : Nat), c < N → N ≤ fuel + c →
      (pollAux N check fuel c).2 = PollExit.timeoutHit ∨
      (pollAux N check fuel c).2 = PollExit.requested := by
  intro fuel
  induction fuel with
  | zero => intro c hc hf; omega
  | succ fuel ih =>
    intro c hc hf
    simp only [pollAux]
    by_cases hN : c + 1 = N
    · simp [hN]
    · cases hck : check (c + 1) with
      | retTrue => simp [hN, hck]; exact ih (c + 1) (by omega) (by omega)
      | retFalse => simp [hN, hck]
      | raised => simp [hN, hck]; exact ih (c + 1) (by omega) (by omega)

theorem pollLoop_exit (N fuel : Nat) (check : Nat → CheckRes)
    (hN : 1 ≤ N) (hfuel : N ≤ fuel) :
    (pollLoop N fuel check).2 = PollExit.timeoutHit ∨
    (pollLoop N fuel check).2 = PollExit.requested :=
  pollAux_exit N check fuel 0 (by omega) (by omega)

/-- Pointwise replacement of a raising `check` by one returning true. -/
def containCheck (check : Nat → CheckRes) : Nat → CheckRes :=
  fun i =>
    match check i with
    | CheckRes.raised => CheckRes.retTrue
    | r => r

theorem pollAux_contain (N : Nat) (check : Nat → CheckRes) :
    ∀ (fuel c : Nat), pollAux N (containCheck check) fuel c = pollAux N check fuel c := by
  intro fuel
  induction fuel with
  | zero => intro c; rfl
  | succ fuel ih =>
    intro c
    simp only [pollAux]
    by_cases hN : c + 1 = N
    · simp [hN]
    · cases hck : check (c + 1) with
      | retTrue => simp [hN, containCheck, hck]; exact ih (c + 1)
      | retFalse => simp [hN, containCheck, hck]
      | raised => simp [hN, containCheck, hck]; exact ih (c + 1)

theorem pollLoop_contain (N fuel : Nat) (check : Nat → CheckRes) :
    pollLoop N fuel (containCheck check) = pollLoop N fuel check :=
  pollAux_contain N check fuel 0

/-- The same environment with the `check()` behavior replaced. -/
def withCheck (env : Env) (ck : Nat → CheckRes) : Env :=
  ⟨env.choosePackage, env.importOk, env.subclassAvailable, env.auxs,
    env.startRes, ck, env.finishRaises⟩

/-- The same environment with the driver `start()` behavior replaced. -/
def withStart (env : Env) (s : StartRes) : Env :=
  ⟨env.choosePackage, env.importOk, env.subclassAvailable, env.auxs,
    s, env.checkRes, env.finishRaises⟩

theorem auxStartLoop_snd (l : List AuxMod) : (auxStartLoop l).2 = l := by
  induction l with
  | nil => rfl
  | cons m rest ih => cases h : m.startRes <;> simp [auxStartLoop, h, ih]

theorem auxStartLoop_fst_mem (l : List AuxMod) (e : Ev) (he : e ∈ (auxStartLoop l).1) :
    (∃ n, e = Ev.auxStartCall n) ∨ (∃ n, e = Ev.auxAppend n) := by
  induction l with
  | nil => simp [auxStartLoop] at he
  | cons m rest ih =>
    cases h : m.startRes <;> rw [auxStartLoop] at he <;> simp [h] at he <;>
      rcases he with he | he | he <;>
      first
        | exact Or.inl ⟨m.name, he⟩
        | exact Or.inr ⟨m.name, he⟩
        | exact ih he

theorem auxStartLoop_no_finish (l : List AuxMod) :
    Ev.finishCall ∉ (auxStartLoop l).1 := by
  intro h
  rcases auxStartLoop_fst_mem l Ev.finishCall h with ⟨n, hn⟩ | ⟨n, hn⟩ <;> cases hn

theorem auxStartLoop_no_stop (l : List AuxMod) (n : String) :
    Ev.auxStopCall n ∉ (auxStartLoop l).1 := by
  intro h
  rcases auxStartLoop_fst_mem l (Ev.auxStopCall n) h with ⟨m, hm⟩ | ⟨m, hm⟩ <;> cases hm

theorem auxStopLoop_no_finish (l : List AuxMod) :
    Ev.finishCall ∉ auxStopLoop l := by
  induction l with
  | nil => simp [auxStopLoop]
  | cons m rest ih => cases h : m.stopRes <;> simp [auxStopLoop, h] <;> exact ih

/-- The names on which an `aux.stop()` call is performed, in order. -/
def stopNames (evs : List Ev) : List String :=
  evs.filterMap fun e =>
    match e with
    | Ev.auxStopCall n => some n
    | _ => none

theorem stopNames_append (a b : List Ev) :
    stopNames (a ++ b) = stopNames a ++ stopNames b :=
  List.filterMap_append a b _

theorem stopNames_auxStart (l : List AuxMod) : stopNames (auxStartLoop l).1 = [] := by
  induction l with
  | nil => rfl
  | cons m rest ih => cases h : m.startRes <;> simp [auxStartLoop, h, stopNames] <;>
      simpa [stopNames] using ih

theorem stopNames_auxStop (l : List AuxMod) :
    stopNames (auxStopLoop l) = l.map AuxMod.name := by
  induction l with
  | nil => rfl
  | cons m rest ih => cases h : m.stopRes <;> simp [auxStopLoop, h, stopNames] <;>
      simpa [stopNames] using ih

/-- Shape of a run that reaches the polling loop: package specified, its
module imported and subclass lookup succeed, driver `start()` returns,
loop terminates within the fuel. -/
theorem runAnalyzer_ok_shape (env : Env) (cfg : Config) (fuel : Nat) (p : String)
    (hp : cfg.package = some p) (hp0 : ¬(p = ""))
    (himp : env.importOk ("modules.packages." ++ p) = true)
    (hsub : env.subclassAvailable = true)
    (hstart : env.startRes = StartRes.ok)
    (hN : 1 ≤ cfg.timeout) (hfuel : cfg.timeout ≤ fuel) :
    runAnalyzer env cfg fuel =
      ⟨(auxStartLoop env.auxs).1 ++
          Ev.finishCall :: auxStopLoop (auxStartLoop env.auxs).2,
        some (pollLoop cfg.timeout fuel env.checkRes),
        RunOutcome.finished true⟩ := by
  have hres : resolvePackage env cfg = Except.ok p := by
    simp [resolvePackage, hp, hp0]
  unfold runAnalyzer
  rw [hres]
  simp only [himp, hsub, hstart, driverStartError]
  rcases hpoll : pollLoop cfg.timeout fuel env.checkRes with ⟨iters, ex⟩
  have hexit := pollLoop_exit cfg.timeout fuel env.checkRes hN hfuel
  rw [hpoll] at hexit
  cases ex with
  | fuelOut => simp at hexit
  | timeoutHit => simp [hpoll]
  | requested => simp [hpoll]

/-- Shape of a run that aborts at driver `start()`. -/
theorem runAnalyzer_start_fail_shape (env : Env) (cfg : Config) (fuel : Nat)
    (p m : String)
    (hp : cfg.package = some p) (hp0 : ¬(p = ""))
    (himp : env.importOk ("modules.packages." ++ p) = true)
    (hsub : env.subclassAvailable = true)
    (hmsg : driverStartError ("modules.packages." ++ p) env.startRes = some m) :
    runAnalyzer env cfg fuel =
      ⟨(auxStartLoop env.auxs).1, none, RunOutcome.raised m⟩ := by
  have hres : resolvePackage env cfg = Except.ok p := by
    simp [resolvePackage, hp, hp0]
  unfold runAnalyzer
  rw [hres]
  simp [himp, hsub, hmsg]

theorem cancel3 (a b c : List Char) {x y : List Char}
    (h : a ++ (b ++ (c ++ x)) = a ++ (b ++ (c ++ y))) : x = y :=
  List.append_cancel_left (List.append_cancel_left (List.append_cancel_left h))

/-! ## Claim theorems -/

/-- Claim C1: the `finally` clause of `__main__` (analyzer.py:258-261)
performs the completion call to the host exactly once, carrying the
`success` flag and the error message, on every exit of the `try` body —
a normal return (normal completion, timeout, driver self-termination), any
raised exception (abort during selection/import, abort during driver
start, an uncaught fault during polling), and `KeyboardInterrupt`; and in
particular once for every exit the embedded run produces. -/
theorem c1_completion_exactly_once :
    (∀ e : RunExit,
      (analyzerMain e).completionCalls
        = [((analyzerMain e).success, (analyzerMain e).error)]) ∧
    (∀ (env : Env) (cfg : Config) (fuel : Nat) (e : RunExit),
      runExitOf env cfg fuel = some e →
      (analyzerMain e).completionCalls.length = 1) := by
  constructor
  · intro e; cases e <;> rfl
  · intro env cfg fuel e _; cases e <;> rfl

theorem c1_completion_exactly_once_witness :
    (analyzerMain (RunExit.returned true)).completionCalls.length = 1 :=
  c1_completion_exactly_once.2
    ⟨none, fun _ => true, true, [], StartRes.ok, fun _ => CheckRes.retTrue, false⟩
    ⟨some "apk", Category.file, "", 1, none⟩ 3 (RunExit.returned true) (by decide)

/-- Claim C2: for every timeout `N ≥ 1` (and enough fuel), a `check()`
that always returns true gives exactly `N` loop iterations (the final
`time_counter`) with a timeout exit; a `check()` that returns false at
iteration `k < N` (returning true before) ends the loop at iteration `k`
with a termination-request exit. -/
theorem c2_poll_iteration_count (N fuel : Nat) (check : Nat → CheckRes) :
    (1 ≤ N → N ≤ fuel → (∀ i, check i = CheckRes.retTrue) →
      pollLoop N fuel check = (N, PollExit.timeoutHit)) ∧
    (∀ k, 1 ≤ k → k < N → k ≤ fuel → check k = CheckRes.retFalse →
      (∀ i, 1 ≤ i → i < k → check i = CheckRes.retTrue) →
      pollLoop N fuel check = (k, PollExit.requested)) := by
  constructor
  · intro h1 h2 hall
    exact pollAux_no_false N check (fun i => by simp [hall i]) fuel 0 (by omega) (by omega)
  · intro k hk1 hkN hkf hk hbef
    exact pollAux_first_false N k check hk hkN
      (fun i hi1 hi2 => by simp [hbef i hi1 hi2]) fuel 0 (by omega) (by omega)

theorem c2_poll_iteration_count_witness :
    pollLoop 3 6 (fun _ => CheckRes.retTrue) = (3, PollExit.timeoutHit) ∧
    pollLoop 5 5 (fun i => if i = 2 then CheckRes.retFalse else CheckRes.retTrue)
      = (2, PollExit.requested) :=
  ⟨(c2_poll_iteration_count 3 6 _).1 (by decide) (by decide) (fun _ => rfl),
   (c2_poll_iteration_count 5 5 _).2 2 (by decide) (by decide) (by decide) rfl
     (fun i h1 h2 => by
        have hi : i = 1 := by omega
        subst hi; rfl)⟩

/-- Claim C3 (code bug in analyzer.py:147-165): an auxiliary whose
`start()` raises is indeed contained — the run proceeds and finishes — but
the module is nevertheless recorded in `aux_enabled` (the `finally:` block
at analyzer.py:162-165 runs before the handlers' `continue`, so it logs
"Started auxiliary module" and appends unconditionally) and later has
`stop()` invoked on it.  The claim's "set of auxiliaries whose start()
succeeded" would be empty here; the code records `["Screenshots"]`. -/
theorem c3_failed_aux_still_recorded :
    (auxStartLoop [⟨"Screenshots", AuxRes.raised "boom", AuxRes.ok⟩]).2
        = [⟨"Screenshots", AuxRes.raised "boom", AuxRes.ok⟩] ∧
    runAnalyzer
        ⟨none, fun _ => true, true,
          [⟨"Screenshots", AuxRes.raised "boom", AuxRes.ok⟩],
          StartRes.ok, fun _ => CheckRes.retTrue, false⟩
        ⟨some "apk", Category.file, "", 2, none⟩ 5
      = ⟨[Ev.auxStartCall "Screenshots", Ev.auxAppend "Screenshots", Ev.finishCall,
          Ev.auxStopCall "Screenshots"],
          some (2, PollExit.timeoutHit), RunOutcome.finished true⟩ :=
  ⟨rfl, by decide⟩

/-- Claim C4: a specified driver name whose module fails to import aborts
the run before any auxiliary `start()` is invoked (no events at all), with
a `CuckooError` whose message contains the attempted name, and `__main__`
then reports `success = false` with that message. -/
theorem c4_unimportable_package_aborts
    (env : Env) (cfg : Config) (fuel : Nat) (p : String)
    (hp : cfg.package = some p) (hp0 : ¬(p = ""))
    (himp : env.importOk ("modules.packages." ++ p) = false) :
    ∃ msg pre suf,
      runAnalyzer env cfg fuel = ⟨[], none, RunOutcome.raised msg⟩ ∧
      msg.data = pre ++ p.data ++ suf ∧
      runExitOf env cfg fuel = some (RunExit.raisedError msg) ∧
      analyzerMain (RunExit.raisedError msg) = ⟨false, msg, [(false, msg)]⟩ := by
  have hres : resolvePackage env cfg = Except.ok p := by
    simp [resolvePackage, hp, hp0]
  have h1 : runAnalyzer env cfg fuel
      = ⟨[], none, RunOutcome.raised
          ("Unable to import package \"" ++ ("modules.packages." ++ p) ++
            "\", does not exist.")⟩ := by
    unfold runAnalyzer
    rw [hres]
    simp [himp]
  refine ⟨_, ("Unable to import package \"" : String).data ++
      ("modules.packages." : String).data, ("\", does not exist." : String).data,
    h1, ?_, ?_, rfl⟩
  · simp [String.data_append, List.append_assoc]
  · simp [runExitOf, h1]

theorem c4_unimportable_package_aborts_witness :
    ∃ msg pre suf,
      runAnalyzer
          ⟨none, fun _ => false, true, [], StartRes.ok, fun _ => CheckRes.retTrue, false⟩
          ⟨some "does_not_exist", Category.file, "", 2, none⟩ 5
        = ⟨[], none, RunOutcome.raised msg⟩ ∧
      msg.data = pre ++ ("does_not_exist" : String).data ++ suf ∧
      runExitOf
          ⟨none, fun _ => false, true, [], StartRes.ok, fun _ => CheckRes.retTrue, false⟩
          ⟨some "does_not_exist", Category.file, "", 2, none⟩ 5
        = some (RunExit.raisedError msg) ∧
      analyzerMain (RunExit.raisedError msg) = ⟨false, msg, [(false, msg)]⟩ :=
  c4_unimportable_package_aborts
    ⟨none, fun _ => false, true, [], StartRes.ok, fun _ => CheckRes.retTrue, false⟩
    ⟨some "does_not_exist", Category.file, "", 2, none⟩ 5 "does_not_exist"
    rfl (by decide) rfl

/-- Claim C5: in a run that reaches `pack.start`, each of the three start
failure subkinds — `NotImplementedError`, `CuckooPackageError`, any other
exception — aborts the run with a `CuckooError`, and the three messages
are pairwise distinct for every package name and exception texts. -/
theorem c5_start_failures_fatal_distinct
    (env : Env) (cfg : Config) (fuel : Nat) (p e1 e2 : String)
    (hp : cfg.package = some p) (hp0 : ¬(p = ""))
    (himp : env.importOk ("modules.packages." ++ p) = true)
    (hsub : env.subclassAvailable = true) :
    ((runAnalyzer (withStart env StartRes.notImplemented) cfg fuel).outcome
        = RunOutcome.raised (startNotImplMsg ("modules.packages." ++ p))) ∧
    ((runAnalyzer (withStart env (StartRes.packageError e1)) cfg fuel).outcome
        = RunOutcome.raised (startPkgErrMsg ("modules.packages." ++ p) e1)) ∧
    ((runAnalyzer (withStart env (StartRes.unexpected e2)) cfg fuel).outcome
        = RunOutcome.raised (startUnexpMsg ("modules.packages." ++ p) e2)) ∧
    ¬(startNotImplMsg ("modules.packages." ++ p)
        = startPkgErrMsg ("modules.packages." ++ p) e1) ∧
    ¬(startNotImplMsg ("modules.packages." ++ p)
        = startUnexpMsg ("modules.packages." ++ p) e2) ∧
    ¬(startPkgErrMsg ("modules.packages." ++ p) e1
        = startUnexpMsg ("modules.packages." ++ p) e2) := by
  refine ⟨?_, ?_, ?_, ?_, ?_, ?_⟩
  · rw [runAnalyzer_start_fail_shape (withStart env StartRes.notImplemented) cfg fuel p _
      hp hp0 himp hsub rfl]
  · rw [runAnalyzer_start_fail_shape (withStart env (StartRes.packageError e1)) cfg fuel p _
      hp hp0 himp hsub rfl]
  · rw [runAnalyzer_start_fail_shape (withStart env (StartRes.unexpected e2)) cfg fuel p _
      hp hp0 himp hsub rfl]
  · intro h
    unfold startNotImplMsg startPkgErrMsg at h
    have h3 : ("doesn't contain a run function." : String).data
        = ("start function raised an error: " ++ e1).data :=
      List.append_cancel_left
        (congrArg String.data h :
          ("The package \"" ++ ("modules.packages." ++ p) ++ "\" ").data
              ++ ("doesn't contain a run function." : String).data
            = ("The package \"" ++ ("modules.packages." ++ p) ++ "\" ").data
              ++ ("start function raised an error: " ++ e1).data)
    have h5 : (some 'd' : Option Char) = some 's' := congrArg List.head? h3
    exact absurd (Option.some.inj h5) (by decide)
  · intro h
    unfold startNotImplMsg startUnexpMsg at h
    have h3 : ("doesn't contain a run function." : String).data
        = ("start function encountered an unhandled exception: " ++ e2).data :=
      List.append_cancel_left
        (congrArg String.data h :
          ("The package \"" ++ ("modules.packages." ++ p) ++ "\" ").data
              ++ ("doesn't contain a run function." : String).data
            = ("The package \"" ++ ("modules.packages." ++ p) ++ "\" ").data
              ++ ("start function encountered an unhandled exception: " ++ e2).data)
    have h5 : (some 'd' : Option Char) = some 's' := congrArg List.head? h3
    exact absurd (Option.some.inj h5) (by decide)
  · intro h
    unfold startPkgErrMsg startUnexpMsg at h
    have h3 : ("start function raised an error: " ++ e1).data
        = ("start function encountered an unhandled exception: " ++ e2).data :=
      List.append_cancel_left
        (congrArg String.data h :
          ("The package \"" ++ ("modules.packages." ++ p) ++ "\" ").data
              ++ ("start function raised an error: " ++ e1).data
            = ("The package \"" ++ ("modules.packages." ++ p) ++ "\" ").data
              ++ ("start function encountered an unhandled exception: " ++ e2).data)
    have h5 : (some 'r' : Option Char) = some 'e' := congrArg (fun l => List.get? l 15) h3
    exact absurd (Option.some.inj h5) (by decide)

theorem c5_start_failures_fatal_distinct_witness :
    ((runAnalyzer
        (withStart ⟨none, fun _ => true, true, [], StartRes.ok,
          fun _ => CheckRes.retTrue, false⟩ StartRes.notImplemented)
        ⟨some "apk", Category.file, "", 2, none⟩ 5).outcome
      = RunOutcome.raised (startNotImplMsg ("modules.packages." ++ "apk"))) ∧
    ((runAnalyzer
        (withStart ⟨none, fun _ => true, true, [], StartRes.ok,
          fun _ => CheckRes.retTrue, false⟩ (StartRes.packageError "bad apk"))
        ⟨some "apk", Category.file, "", 2, none⟩ 5).outcome
      = RunOutcome.raised (startPkgErrMsg ("modules.packages." ++ "apk") "bad apk")) ∧
    ((runAnalyzer
        (withStart ⟨none, fun _ => true, true, [], StartRes.ok,
          fun _ => CheckRes.retTrue, false⟩ (StartRes.unexpected "oops"))
        ⟨some "apk", Category.file, "", 2, none⟩ 5).outcome
      = RunOutcome.raised (startUnexpMsg ("modules.packages." ++ "apk") "oops")) ∧
    ¬(startNotImplMsg ("modules.packages." ++ "apk")
        = startPkgErrMsg ("modules.packages." ++ "apk") "bad apk") ∧
    ¬(startNotImplMsg ("modules.packages." ++ "apk")
        = startUnexpMsg ("modules.packages." ++ "apk") "oops") ∧
    ¬(startPkgErrMsg ("modules.packages." ++ "apk") "bad apk"
        = startUnexpMsg ("modules.packages." ++ "apk") "oops") :=
  c5_start_failures_fatal_distinct
    ⟨none, fun _ => true, true, [], StartRes.ok, fun _ => CheckRes.retTrue, false⟩
    ⟨some "apk", Category.file, "", 2, none⟩ 5 "apk" "bad apk" "oops"
    rfl (by decide) rfl rfl

/-- Claim C6: a `check()` that raises behaves exactly as one returning
true on those iterations: replacing every raising iteration by a
true-returning one yields the identical run — same events, same poll
iteration count and exit, same outcome.  In particular a raised fault
never terminates the loop early and is never fatal (the `except` at
analyzer.py:202-204 only logs a warning). -/
theorem c6_check_fault_contained (env : Env) (cfg : Config) (fuel : Nat) :
    runAnalyzer (withCheck env (containCheck env.checkRes)) cfg fuel
      = runAnalyzer env cfg fuel := by
  unfold runAnalyzer
  have h1 : resolvePackage (withCheck env (containCheck env.checkRes)) cfg
      = resolvePackage env cfg := rfl
  rw [h1]
  cases hres : resolvePackage env cfg with
  | error msg => rfl
  | ok pkg =>
    simp only [withCheck]
    rw [pollLoop_contain]

/-- Claim C7: `get_options` parses `"a=1, b = 2 ,bad"` to exactly
`{a: "1", b: "2"}` with one warning; an absent or empty options string
yields the empty dict; a field whose `=`-split does not have exactly two
pieces (missing or extra `=`) is dropped with one warning and never fails;
a well-formed field is stored with key and value whitespace-stripped. -/
theorem c7_option_parsing :
    get_options none = ([], 0) ∧
    get_options (some "") = ([], 0) ∧
    get_options (some "a=1, b = 2 ,bad") = ([("a", "1"), ("b", "2")], 1) ∧
    (∀ acc f, ¬((splitEq f).length = 2) → stepField acc f = (acc.1, acc.2 + 1)) ∧
    (∀ acc f k v, splitEq f = [k, v] →
      stepField acc f = (upsert acc.1 (strip k) (strip v), acc.2)) := by
  refine ⟨rfl, rfl, by decide, ?_, ?_⟩
  · intro acc f h
    rcases hsp : splitEq f with _ | ⟨a, _ | ⟨b, _ | ⟨c, t⟩⟩⟩
    · simp [stepField, hsp]
    · simp [stepField, hsp]
    · rw [hsp] at h; simp at h
    · simp [stepField, hsp]
  · intro acc f k v h
    simp [stepField, h]

theorem c7_option_parsing_witness :
    stepField ([], 0) "bad" = ([], 1) ∧
    stepField ([], 0) " x = y " = ([("x", "y")], 0) :=
  ⟨c7_option_parsing.2.2.2.1 ([], 0) "bad" (by decide),
   c7_option_parsing.2.2.2.2 ([], 0) " x = y " "x " " y" (by decide)⟩

/-- Claim C8: in every run that reaches `pack.start` with a positive
timeout, if `start()` succeeded then `pack.finish()` is invoked exactly
once — on both loop exits (timeout and driver-requested termination) — it
precedes every auxiliary `stop()`, and the run still returns `True`
whatever `finish()` does (its exception is only logged,
analyzer.py:209-215); if `start()` failed, `finish()` is never invoked. -/
theorem c8_finish_exactly_once
    (env : Env) (cfg : Config) (fuel : Nat) (p : String)
    (hp : cfg.package = some p) (hp0 : ¬(p = ""))
    (himp : env.importOk ("modules.packages." ++ p) = true)
    (hsub : env.subclassAvailable = true)
    (hN : 1 ≤ cfg.timeout) (hfuel : cfg.timeout ≤ fuel) :
    (env.startRes = StartRes.ok →
      ((runAnalyzer env cfg fuel).events.count Ev.finishCall = 1 ∧
        (∃ A B, (runAnalyzer env cfg fuel).events = A ++ Ev.finishCall :: B ∧
          ∀ n, Ev.auxStopCall n ∉ A) ∧
        (runAnalyzer env cfg fuel).outcome = RunOutcome.finished true ∧
        ((pollLoop cfg.timeout fuel env.checkRes).2 = PollExit.timeoutHit ∨
          (pollLoop cfg.timeout fuel env.checkRes).2 = PollExit.requested))) ∧
    (¬(env.startRes = StartRes.ok) →
      (runAnalyzer env cfg fuel).events.count Ev.finishCall = 0) := by
  constructor
  · intro hstart
    rw [runAnalyzer_ok_shape env cfg fuel p hp hp0 himp hsub hstart hN hfuel]
    refine ⟨?_,
      ⟨(auxStartLoop env.auxs).1, auxStopLoop (auxStartLoop env.auxs).2, rfl,
        fun n => auxStartLoop_no_stop env.auxs n⟩,
      rfl, pollLoop_exit cfg.timeout fuel env.checkRes hN hfuel⟩
    rw [List.count_append, List.count_eq_zero.mpr (auxStartLoop_no_finish env.auxs),
      List.count_cons_self,
      List.count_eq_zero.mpr (auxStopLoop_no_finish (auxStartLoop env.auxs).2)]
  · intro hstart
    cases hsr : env.startRes with
    | ok => exact absurd hsr hstart
    | notImplemented =>
        rw [runAnalyzer_start_fail_shape env cfg fuel p
          (startNotImplMsg ("modules.packages." ++ p)) hp hp0 himp hsub (by rw [hsr]; rfl)]
        exact List.count_eq_zero.mpr (auxStartLoop_no_finish env.auxs)
    | packageError e =>
        rw [runAnalyzer_start_fail_shape env cfg fuel p
          (startPkgErrMsg ("modules.packages." ++ p) e) hp hp0 himp hsub (by rw [hsr]; rfl)]
        exact List.count_eq_zero.mpr (auxStartLoop_no_finish env.auxs)
    | unexpected e =>
        rw [runAnalyzer_start_fail_shape env cfg fuel p
          (startUnexpMsg ("modules.packages." ++ p) e) hp hp0 himp hsub (by rw [hsr]; rfl)]
        exact List.count_eq_zero.mpr (auxStartLoop_no_finish env.auxs)

theorem c8_finish_exactly_once_witness :
    ((runAnalyzer
        ⟨none, fun _ => true, true,
          [⟨"Screenshots", AuxRes.ok, AuxRes.raised "x"⟩, ⟨"AuditLog", AuxRes.ok, AuxRes.ok⟩],
          StartRes.ok, fun _ => CheckRes.retTrue, true⟩
        ⟨some "apk", Category.file, "", 2, none⟩ 5).events.count Ev.finishCall = 1 ∧
      (∃ A B, (runAnalyzer
        ⟨none, fun _ => true, true,
          [⟨"Screenshots", AuxRes.ok, AuxRes.raised "x"⟩, ⟨"AuditLog", AuxRes.ok, AuxRes.ok⟩],
          StartRes.ok, fun _ => CheckRes.retTrue, true⟩
        ⟨some "apk", Category.file, "", 2, none⟩ 5).events = A ++ Ev.finishCall :: B ∧
        ∀ n, Ev.auxStopCall n ∉ A) ∧
      (runAnalyzer
        ⟨none, fun _ => true, true,
          [⟨"Screenshots", AuxRes.ok, AuxRes.raised "x"⟩, ⟨"AuditLog", AuxRes.ok, AuxRes.ok⟩],
          StartRes.ok, fun _ => CheckRes.retTrue, true⟩
        ⟨some "apk", Category.file, "", 2, none⟩ 5).outcome = RunOutcome.finished true ∧
      ((pollLoop 2 5 (fun _ => CheckRes.retTrue)).2 = PollExit.timeoutHit ∨
        (pollLoop 2 5 (fun _ => CheckRes.retTrue)).2 = PollExit.requested)) ∧
    (runAnalyzer
        ⟨none, fun _ => true, true,
          [⟨"Screenshots", AuxRes.ok, AuxRes.raised "x"⟩, ⟨"AuditLog", AuxRes.ok, AuxRes.ok⟩],
          StartRes.notImplemented, fun _ => CheckRes.retTrue, true⟩
        ⟨some "apk", Category.file, "", 2, none⟩ 5).events.count Ev.finishCall = 0 :=
  ⟨(c8_finish_exactly_once
      ⟨none, fun _ => true, true,
        [⟨"Screenshots", AuxRes.ok, AuxRes.raised "x"⟩, ⟨"AuditLog", AuxRes.ok, AuxRes.ok⟩],
        StartRes.ok, fun _ => CheckRes.retTrue, true⟩
      ⟨some "apk", Category.file, "", 2, none⟩ 5 "apk"
      rfl (by decide) rfl rfl (by decide) (by decide)).1 rfl,
   (c8_finish_exactly_once
      ⟨none, fun _ => true, true,
        [⟨"Screenshots", AuxRes.ok, AuxRes.raised "x"⟩, ⟨"AuditLog", AuxRes.ok, AuxRes.ok⟩],
        StartRes.notImplemented, fun _ => CheckRes.retTrue, true⟩
      ⟨some "apk", Category.file, "", 2, none⟩ 5 "apk"
      rfl (by decide) rfl rfl (by decide) (by decide)).2 (by decide)⟩

/-- Claim C9: in every run that reaches shutdown, `stop()` is invoked
exactly once on each module recorded in `aux_enabled`, in order, whatever
each `stop()` does — a raising `stop()` neither prevents the remaining
`stop()` calls (they all appear) nor fails the run (which still returns
`True`). -/
theorem c9_stop_each_recorded_once
    (env : Env) (cfg : Config) (fuel : Nat) (p : String)
    (hp : cfg.package = some p) (hp0 : ¬(p = ""))
    (himp : env.importOk ("modules.packages." ++ p) = true)
    (hsub : env.subclassAvailable = true)
    (hstart : env.startRes = StartRes.ok)
    (hN : 1 ≤ cfg.timeout) (hfuel : cfg.timeout ≤ fuel) :
    stopNames (runAnalyzer env cfg fuel).events
        = (auxStartLoop env.auxs).2.map AuxMod.name ∧
    (runAnalyzer env cfg fuel).outcome = RunOutcome.finished true := by
  rw [runAnalyzer_ok_shape env cfg fuel p hp hp0 himp hsub hstart hN hfuel]
  refine ⟨?_, rfl⟩
  rw [stopNames_append, stopNames_auxStart,
    show stopNames (Ev.finishCall :: auxStopLoop (auxStartLoop env.auxs).2)
      = stopNames (auxStopLoop (auxStartLoop env.auxs).2) from rfl,
    stopNames_auxStop]
  simp

theorem c9_stop_each_recorded_once_witness :
    stopNames (runAnalyzer
        ⟨none, fun _ => true, true,
          [⟨"Screenshots", AuxRes.ok, AuxRes.raised "x"⟩, ⟨"AuditLog", AuxRes.ok, AuxRes.ok⟩],
          StartRes.ok, fun _ => CheckRes.retTrue, false⟩
        ⟨some "apk", Category.file, "", 2, none⟩ 5).events
      = (auxStartLoop
          [⟨"Screenshots", AuxRes.ok, AuxRes.raised "x"⟩,
            ⟨"AuditLog", AuxRes.ok, AuxRes.ok⟩]).2.map AuxMod.name ∧
    (runAnalyzer
        ⟨none, fun _ => true, true,
          [⟨"Screenshots", AuxRes.ok, AuxRes.raised "x"⟩, ⟨"AuditLog", AuxRes.ok, AuxRes.ok⟩],
          StartRes.ok, fun _ => CheckRes.retTrue, false⟩
        ⟨some "apk", Category.file, "", 2, none⟩ 5).outcome = RunOutcome.finished true :=
  c9_stop_each_recorded_once
    ⟨none, fun _ => true, true,
      [⟨"Screenshots", AuxRes.ok, AuxRes.raised "x"⟩, ⟨"AuditLog", AuxRes.ok, AuxRes.ok⟩],
      StartRes.ok, fun _ => CheckRes.retTrue, false⟩
    ⟨some "apk", Category.file, "", 2, none⟩ 5 "apk"
    rfl (by decide) rfl rfl rfl (by decide) (by decide)

/-- Claim C10: every element of `VirusTotalAPI.normalize` is at least 4
characters long, is not (case-insensitively) a blacklisted generic word,
and does not consist entirely of hexadecimal digits (it is nonempty and
not all-hex); a `None` or empty input yields the empty list. -/
theorem c10_normalize_filters :
    normalize none = [] ∧ normalize (some "") = [] ∧
    ∀ v w, w ∈ normalize (some v) →
      4 ≤ w.length ∧
      VARIANT_BLACKLIST.contains (lowerStr w) = false ∧
      w.data.all isHexDigitChar = false ∧
      ¬(w.data = []) := by
  refine ⟨rfl, rfl, ?_⟩
  intro v w hw
  rw [normalize] at hw
  by_cases hv : v = ""
  · rw [if_pos hv] at hw; cases hw
  · rw [if_neg hv] at hw
    rcases List.mem_filterMap.mp hw with ⟨a, _, hna⟩
    rw [normWord] at hna
    split_ifs at hna with h1 h2 h3
    cases hna
    have hlen : 4 ≤ (pyStrip a).length := by omega
    have hemp : (pyStrip a).isEmpty = false := by
      cases hstrip : pyStrip a with
      | nil => rw [hstrip] at hlen; simp at hlen
      | cons x xs => rfl
    refine ⟨hlen, ?_, ?_, ?_⟩
    · exact Bool.eq_false_iff.mpr h2
    · cases hall : (pyStrip a).all isHexDigitChar with
      | false => exact hall
      | true =>
          exact absurd (by rw [hemp, hall]; rfl :
            (!(pyStrip a).isEmpty && (pyStrip a).all isHexDigitChar) = true) h3
    · intro hnil
      have hnil2 : pyStrip a = [] := hnil
      rw [hnil2] at hlen
      simp at hlen

theorem c10_normalize_filters_witness :
    4 ≤ ("Evil" : String).length ∧
    VARIANT_BLACKLIST.contains (lowerStr "Evil") = false ∧
    ("Evil" : String).data.all isHexDigitChar = false ∧
    ¬(("Evil" : String).data = []) :=
  c10_normalize_filters.2.2 "Evil.generic" "Evil" (by decide)

end Cuckoo
